import Mathlib

/-!
A shallow embedding in Lean 4 of the core of the MCP-TEXT2SQL-EVALUATION
repository: the SQL normalizers, the regex-based feature extractors, the
lexical / structural / semantic-execution metrics, and the aggregation step
of the two evaluation drivers.  Python strings are modelled as Lean
`String` (lists of characters), Python `None` as `Option.none`, Python
floats and float arithmetic as exact rationals `ℚ`, Python sets as
`Finset`, and Python dicts as insertion-ordered association lists.
-/

set_option maxHeartbeats 1000000

namespace PyStr

/-- Python `\s` on ASCII text: space, tab, newline, carriage return,
vertical tab, form feed. -/
def isWsC (c : Char) : Bool :=
  c == ' ' || c == '\t' || c == '\n' || c == '\r' ||
  c == Char.ofNat 11 || c == Char.ofNat 12

/-- Character class `[a-z]`. -/
def isLowerAlphaC (c : Char) : Bool :=
  decide (97 ≤ c.toNat) && decide (c.toNat ≤ 122)

/-- Character class `[A-Z]`. -/
def isUpperAlphaC (c : Char) : Bool :=
  decide (65 ≤ c.toNat) && decide (c.toNat ≤ 90)

/-- Character class `[0-9]`. -/
def isDigitC (c : Char) : Bool :=
  decide (48 ≤ c.toNat) && decide (c.toNat ≤ 57)

/-- Character class `[a-zA-Z_]` (start of an identifier token). -/
def isIdentStartC (c : Char) : Bool :=
  isLowerAlphaC c || isUpperAlphaC c || c == '_'

/-- Character class `[a-zA-Z0-9_]` (regex word character). -/
def isWordC (c : Char) : Bool :=
  isIdentStartC c || isDigitC c

/-- Character class `[a-z0-9_]` (the qualifier pattern of the lexical
normalizer). -/
def isLowerWordC (c : Char) : Bool :=
  isLowerAlphaC c || isDigitC c || c == '_'

/-- Python `str.lower` on ASCII text (`A`-`Z` mapped down, all other
characters unchanged). -/
def pyLowerC (c : Char) : Char :=
  if isUpperAlphaC c then Char.ofNat (c.toNat + 32) else c

/-- Does `pat` occur literally at the head of `s`? -/
def startsWithL : List Char → List Char → Bool
  | [], _ => true
  | _ :: _, [] => false
  | p :: ps, c :: cs => p == c && startsWithL ps cs

end PyStr

namespace SemanticEvaluator

/-- Embedding of `semantic_evaluator.execution_accuracy`.  An execution
result is `none` for the failure sentinel (`None` in Python) and
`some rows` for a successful execution; Python `==` on two row lists is
order- and multiplicity-sensitive list equality. -/
def execution_accuracy {α : Type} [DecidableEq α] :
    Option (List α) → Option (List α) → ℕ
  | none, _ => 0
  | some _, none => 0
  | some g, some h => if g = h then 1 else 0

/-- Python truthiness test `result is None or not result` used by
`partial_execution_accuracy`: true for the failure sentinel and for an
empty row list. -/
def optFalsy {α : Type} : Option (List α) → Bool
  | none => true
  | some l => l.isEmpty

/-- Embedding of `semantic_evaluator.partial_execution_accuracy`:
`|set(gold) ∩ set(gen)| / |set(gold)|`, with the source's two early
returns for a falsy gold result and a failed generated result. -/
def partial_execution_accuracy {α : Type} [DecidableEq α] :
    Option (List α) → Option (List α) → ℚ
  | gold, gen =>
    if optFalsy gold then (if optFalsy gen then 1 else 0)
    else
      match gen with
      | none => 0
      | some l =>
        match gold with
        | none => 0   -- dead branch: `optFalsy none = true`
        | some g =>
          ((g.toFinset ∩ l.toFinset).card : ℚ) / (g.toFinset.card : ℚ)

end SemanticEvaluator

namespace PyStr

/-- Embedding of `re.sub(r'\s+', ' ', s)`: collapse every maximal run of
whitespace characters to a single space. -/
def collapseWs : List Char → List Char
  | [] => []
  | [c] => if isWsC c then [' '] else [c]
  | a :: b :: rest =>
    if isWsC a && isWsC b then collapseWs (b :: rest)
    else (if isWsC a then ' ' else a) :: collapseWs (b :: rest)

/-- Embedding of `re.sub(r' as ', ' ', s)`: replace each non-overlapping
occurrence of `" as "`, scanning left to right and resuming after the
replaced text (the replacement is not rescanned). -/
def subAsSpaces : List Char → List Char
  | ' ' :: 'a' :: 's' :: ' ' :: rest => ' ' :: subAsSpaces rest
  | c :: cs => c :: subAsSpaces cs
  | [] => []

/-- Embedding of `re.sub(r'([a-z0-9_]+)\s*\.', '', s)` (fuelled scan).
At a `[a-z0-9_]` character the maximal word run, the following maximal
whitespace run and a `.` are removed when present; since the three
character classes involved are pairwise disjoint the greedy maximal match
is exactly the Python backtracking match, and when the attempt fails every
attempt starting inside the same run fails too, so the whole run is kept. -/
def stripQualifiersAux : Nat → List Char → List Char
  | 0, _ => []
  | _ + 1, [] => []
  | fuel + 1, c :: cs =>
    if isLowerWordC c then
      let rest := cs.dropWhile isLowerWordC
      let rest2 := rest.dropWhile isWsC
      match rest2 with
      | '.' :: r3 => stripQualifiersAux fuel r3
      | _ => (c :: cs.takeWhile isLowerWordC) ++ stripQualifiersAux fuel rest
    else c :: stripQualifiersAux fuel cs

/-- `re.sub(r'([a-z0-9_]+)\s*\.', '', s)` with sufficient fuel. -/
def stripQualifiers (l : List Char) : List Char :=
  stripQualifiersAux (l.length + 1) l

/-- Embedding of `re.sub` with a single-character pattern and an empty
replacement (used for the backquote and for `;`). -/
def removeAllChar (x : Char) (l : List Char) : List Char :=
  l.filter (fun c => c != x)

/-- Embedding of Python `str.strip()`: drop leading and trailing
whitespace. -/
def pyStrip (l : List Char) : List Char :=
  ((l.dropWhile isWsC).reverse.dropWhile isWsC).reverse

/-- Python `str.lower()` on a character list. -/
def pyLowerL (l : List Char) : List Char := l.map pyLowerC

end PyStr

namespace LexicalEvaluator

open PyStr

/-- Embedding of `lexical_evaluator.normalize_sql`: lower-case, remove
backquotes, collapse whitespace, drop `" as "`, strip `identifier.`
qualifier prefixes, remove `;`, and trim. -/
def normalize_sql (s : String) : String :=
  String.mk (pyStrip (removeAllChar ';'
    (stripQualifiers (subAsSpaces (collapseWs
      (removeAllChar (Char.ofNat 96) (pyLowerL s.toList)))))))

/-- Maximal word-character runs of a character list, in order.  A run is
matched by `\b[a-zA-Z_][a-zA-Z0-9_]*\b` exactly when its first character
is not a digit (there is no word boundary inside a run, so a run starting
with a digit produces no token at all). -/
def wordRuns : Nat → List Char → List (List Char)
  | 0, _ => []
  | _ + 1, [] => []
  | fuel + 1, c :: cs =>
    if isWordC c then
      (c :: cs.takeWhile isWordC) :: wordRuns fuel (cs.dropWhile isWordC)
    else wordRuns fuel cs

/-- The reserved keyword list of `lexical_evaluator.extract_attributes`. -/
def reserved : List String :=
  ["select", "from", "where", "and", "or", "join", "on", "as", "sum",
   "count", "avg", "min", "max", "group", "by", "order", "limit",
   "inner", "left", "right", "outer", "cast", "case", "when", "then",
   "else", "end", "distinct", "having", "like", "in", "between",
   "union", "all"]

/-- Embedding of `lexical_evaluator.extract_attributes`:
`re.findall(r'\b[a-zA-Z_][a-zA-Z0-9_]*\b', sql.lower())` filtered by the
reserved-word list, duplicates and order preserved. -/
def extract_attributes (sql : String) : List String :=
  let l := pyLowerL sql.toList
  ((wordRuns (l.length + 1) l).filterMap
    (fun run => match run with
      | c :: _ => if isIdentStartC c then some (String.mk run) else none
      | [] => none)).filter
    (fun t => !(reserved.contains t))

/-- The Levenshtein (unit-cost edit) distance, fuelled; with fuel larger
than `a.length + b.length` this is the textbook recurrence computed by the
`Levenshtein.distance` library function. -/
def levDistAux : Nat → List Char → List Char → ℕ
  | 0, _, _ => 0
  | _ + 1, [], ys => ys.length
  | _ + 1, xs, [] => xs.length
  | fuel + 1, x :: xs, y :: ys =>
    if x = y then levDistAux fuel xs ys
    else 1 + min (levDistAux fuel (x :: xs) ys)
             (min (levDistAux fuel xs (y :: ys)) (levDistAux fuel xs ys))

/-- Levenshtein distance with sufficient fuel. -/
def levenshtein_distance (a b : List Char) : ℕ :=
  levDistAux (a.length + b.length + 1) a b

/-- Embedding of `lexical_evaluator.levenshtein_similarity`:
`1 - dist / max(len(a), len(b))`, `0.0` if either string is empty. -/
def levenshtein_similarity (a b : String) : ℚ :=
  if a = "" ∨ b = "" then 0
  else 1 - (levenshtein_distance a.toList b.toList : ℚ) /
    (max a.toList.length b.toList.length : ℚ)

/-- Embedding of `lexical_evaluator.lexical_accuracy`:
`len(set(attrs_gold) & set(attrs_gen)) / len(set(attrs_gold))`, `0.0` when
the golden attribute set is empty. -/
def lexical_accuracy (golden_sql generated_sql : String) : ℚ :=
  let attrs_gold := (extract_attributes golden_sql).toFinset
  let attrs_gen := (extract_attributes generated_sql).toFinset
  if attrs_gold = ∅ then 0
  else ((attrs_gold ∩ attrs_gen).card : ℚ) / (attrs_gold.card : ℚ)

end LexicalEvaluator

namespace PyStr

/-- Embedding of `re.findall`: scan left to right; at each position try
the pattern's match attempt; on success record the result and resume right
after the match, otherwise advance one character.  `att` returns the match
result together with the unconsumed rest of the text; every pattern used
in this development consumes at least one character, so fuel
`length + 1` is exact. -/
def scanAllF {α : Type} (att : List Char → Option (α × List Char)) :
    Nat → List Char → List α
  | 0, _ => []
  | _ + 1, [] => []
  | fuel + 1, c :: cs =>
    match att (c :: cs) with
    | some (a, rest) => a :: scanAllF att fuel rest
    | none => scanAllF att fuel cs

end PyStr

namespace StructEvaluator

open PyStr

/-- Embedding of `struct_evaluator.normalize_sql`: identical to the
lexical normalizer except that qualifier prefixes are kept. -/
def normalize_sql (s : String) : String :=
  String.mk (pyStrip (removeAllChar ';'
    (subAsSpaces (collapseWs
      (removeAllChar (Char.ofNat 96) (pyLowerL s.toList))))))

/-- One match attempt, at the head of `s`, of the `extract_tables` pattern
`(?:from|join)\s+([a-zA-Z_][a-zA-Z0-9_]*)(?:\s+as\s+([a-zA-Z_][a-zA-Z0-9_]*))?`.
All character classes in the pattern are pairwise disjoint from their
successors, so each greedy run is exactly its maximal run and the Python
backtracking match coincides with this deterministic scan.  An absent
alias group yields `""`, as `re.findall` does for an unmatched group. -/
def tableAttempt (s : List Char) : Option ((String × String) × List Char) :=
  if startsWithL ['f', 'r', 'o', 'm'] s || startsWithL ['j', 'o', 'i', 'n'] s then
    let s1 := s.drop 4
    let w := (s1.takeWhile isWsC).length
    if w = 0 then none else
    match s1.drop w with
    | c :: cs =>
      if isIdentStartC c then
        let t := String.mk (c :: cs.takeWhile isWordC)
        let rest := cs.dropWhile isWordC
        let wa := (rest.takeWhile isWsC).length
        let aliasTry : Option (String × List Char) :=
          if wa = 0 then none else
          let r2 := rest.drop wa
          if startsWithL ['a', 's'] r2 then
            let r3 := r2.drop 2
            let wb := (r3.takeWhile isWsC).length
            if wb = 0 then none else
            match r3.drop wb with
            | d :: ds =>
              if isIdentStartC d then
                some (String.mk (d :: ds.takeWhile isWordC), ds.dropWhile isWordC)
              else none
            | [] => none
          else none
        match aliasTry with
        | some (al, r4) => some ((t, al), r4)
        | none => some ((t, ""), rest)
      else none
    | [] => none
  else none

/-- Embedding of `struct_evaluator.extract_tables`: run the findall over
the lowered SQL and build the alias map as a Python dict
(`table_map[alias if alias else table_name] = table_name`): insertion
order of first key occurrence, last write wins. -/
def dictInsert (d : List (String × String)) (k v : String) :
    List (String × String) :=
  if d.any (fun p => p.1 == k) then
    d.map (fun p => if p.1 == k then (k, v) else p)
  else d ++ [(k, v)]

/-- Python `dict.get(k, default)` on the association-list model. -/
def dictGet (d : List (String × String)) (k dflt : String) : String :=
  match d.find? (fun p => p.1 == k) with
  | some p => p.2
  | none => dflt

/-- Python `dict.get(k)` (returning `None` when absent) on the
association-list model. -/
def dictGet? (d : List (String × String)) (k : String) : Option String :=
  (d.find? (fun p => p.1 == k)).map (fun p => p.2)

def extract_tables (sql : String) : List (String × String) :=
  let l := pyLowerL sql.toList
  (scanAllF tableAttempt (l.length + 1) l).foldl
    (fun d p => dictInsert d (if p.2 ≠ "" then p.2 else p.1) p.1) []

/-- One match attempt, at the head of `s`, of the join-predicate pattern
`([a-zA-Z_][a-zA-Z0-9_]*)\.[a-zA-Z_][a-zA-Z0-9_]*\s*=\s*([a-zA-Z_][a-zA-Z0-9_]*)\.[a-zA-Z_][a-zA-Z0-9_]*`.
Again every greedy run is followed by a character outside its class, so
the deterministic maximal-run scan is the Python match. -/
def pairAttempt (s : List Char) : Option ((String × String) × List Char) :=
  match s with
  | c :: cs =>
    if isIdentStartC c then
      match cs.dropWhile isWordC with
      | '.' :: rest2 =>
        match rest2 with
        | d :: ds =>
          if isIdentStartC d then
            let rest3 := (ds.dropWhile isWordC).dropWhile isWsC
            match rest3 with
            | '=' :: rest5 =>
              match rest5.dropWhile isWsC with
              | e :: es =>
                if isIdentStartC e then
                  match es.dropWhile isWordC with
                  | '.' :: rest8 =>
                    match rest8 with
                    | f :: fs =>
                      if isIdentStartC f then
                        some ((String.mk (c :: cs.takeWhile isWordC),
                               String.mk (e :: es.takeWhile isWordC)),
                              fs.dropWhile isWordC)
                      else none
                    | [] => none
                  | _ => none
                else none
              | [] => none
            | _ => none
          else none
        | [] => none
      | _ => none
    else none
  | [] => none

/-- The tail alternation `(?:\s+join|\s+where|$)` of the join-block
pattern, tried in order; `$` also matches just before a final newline and
consumes nothing. -/
def blockTail (s : List Char) : Option (List Char) :=
  let w3 := (s.takeWhile isWsC).length
  if w3 ≥ 1 && startsWithL ['j', 'o', 'i', 'n'] (s.drop w3) then
    some ((s.drop w3).drop 4)
  else if w3 ≥ 1 && startsWithL ['w', 'h', 'e', 'r', 'e'] (s.drop w3) then
    some ((s.drop w3).drop 5)
  else if s.isEmpty || s == ['\n'] then some s
  else none

/-- One match attempt, at the head of `s`, of the join-block pattern
`join\s+[a-zA-Z_][a-zA-Z0-9_]*.*?on\s+([^;]+?)(?:\s+join|\s+where|$)`.
The backtracking choice points are enumerated in the engine's preference
order: the greedy identifier star longest first, the lazy `.*?` (which
does not cross a newline) shortest first, the greedy `\s+` after `on`
longest first, the lazy capture `[^;]+?` shortest first, and the tail
alternatives in written order.  The first combination that completes is
the Python match. -/
def blockAttempt (s : List Char) : Option (List Char × List Char) :=
  if startsWithL ['j', 'o', 'i', 'n'] s then
    let s1 := s.drop 4
    let w := (s1.takeWhile isWsC).length
    if w = 0 then none else
    match s1.drop w with
    | c :: cs =>
      if isIdentStartC c then
        let m := (cs.takeWhile isWordC).length
        (List.range (m + 1)).findSome? (fun i =>
          let s3 := cs.drop (m - i)
          (List.range (s3.length + 1)).findSome? (fun d =>
            if (s3.take d).all (fun x => x != '\n') &&
               startsWithL ['o', 'n'] (s3.drop d) then
              let s5 := (s3.drop d).drop 2
              let w2m := (s5.takeWhile isWsC).length
              if w2m = 0 then none else
              (List.range w2m).findSome? (fun j =>
                let s6 := s5.drop (w2m - j)
                (List.range s6.length).findSome? (fun cm =>
                  let cap := s6.take (cm + 1)
                  if cap.all (fun x => x != ';') then
                    match blockTail (s6.drop (cm + 1)) with
                    | some rest => some (cap, rest)
                    | none => none
                  else none))
            else none))
      else none
    | [] => none
  else none

/-- Embedding of `struct_evaluator.extract_joins`: findall all
`join ... on <block>` spans over the lowered SQL, then findall all
`a.col = b.col` qualifier pairs inside each block, concatenated in
order. -/
def extract_joins (sql : String) : List (String × String) :=
  let l := pyLowerL sql.toList
  let blocks := scanAllF blockAttempt (l.length + 1) l
  blocks.foldl
    (fun acc jb => acc ++ scanAllF pairAttempt (jb.length + 1) jb) []

/-- A `networkx.Graph` as used by `build_graph`: node list in insertion
order and undirected edge list in insertion order. -/
structure PyGraph where
  nodes : List String
  edgesL : List (String × String)
  deriving Repr, DecidableEq

def PyGraph.addNode (G : PyGraph) (n : String) : PyGraph :=
  if n ∈ G.nodes then G else { G with nodes := G.nodes ++ [n] }

def PyGraph.addEdge (G : PyGraph) (u v : String) : PyGraph :=
  let G1 := (G.addNode u).addNode v
  if (u, v) ∈ G1.edgesL ∨ (v, u) ∈ G1.edgesL then G1
  else { G1 with edgesL := G1.edgesL ++ [(u, v)] }

/-- Embedding of `struct_evaluator.build_graph`: a node per canonical
table of the alias map, then an edge per extracted join pair whose two
alias-resolved endpoints differ. -/
def build_graph (sql : String) : PyGraph :=
  let table_map := extract_tables sql
  let G0 := (table_map.map (fun p => p.2)).foldl PyGraph.addNode
    { nodes := [], edgesL := [] }
  (extract_joins sql).foldl
    (fun G p =>
      let real_a := dictGet table_map p.1 p.1
      let real_b := dictGet table_map p.2 p.2
      if real_a ≠ real_b then G.addEdge real_a real_b else G) G0

/-- The index of a node in the insertion-order node list. -/
def nodeIdx (nodes : List String) (n : String) : ℕ := nodes.indexOf n

/-- Embedding of `set(G.edges())` for an undirected `networkx` graph:
each stored edge is reported once, oriented with the endpoint that was
inserted earlier into the node list first. -/
def pyEdges (G : PyGraph) : Finset (String × String) :=
  (G.edgesL.map (fun p =>
    if nodeIdx G.nodes p.1 ≤ nodeIdx G.nodes p.2 then p
    else (p.2, p.1))).toFinset

/-- The reported edge set of the join graph of a query. -/
def edgeSetOf (s : String) : Finset (String × String) :=
  pyEdges (build_graph s)

/-- Python `round` to an integer: round half to even. -/
def roundHalfEven (q : ℚ) : ℤ :=
  if q - ⌊q⌋ = 1 / 2 then (if 2 ∣ ⌊q⌋ then ⌊q⌋ else ⌊q⌋ + 1)
  else ⌊q + 1 / 2⌋

/-- Python `round(x, 4)` modelled on exact rationals. -/
def pyRound4 (q : ℚ) : ℚ := (roundHalfEven (q * 10000) : ℚ) / 10000

/-- Python `E1 or E2` on two sets: the first operand when it is truthy
(non-empty), otherwise the second. -/
def pyOrFinset (A B : Finset (String × String)) : Finset (String × String) :=
  if A ≠ ∅ then A else B

/-- Embedding of `struct_evaluator.graph_similarity`, with the source's
two emptiness branches kept separate: `if not E1 and not E2: return 1.0`,
then `if not (E1 or E2): return 0.0`, then the rounded Jaccard ratio. -/
def graph_similarity (sql1 sql2 : String) : ℚ :=
  let E1 := edgeSetOf sql1
  let E2 := edgeSetOf sql2
  if E1 = ∅ ∧ E2 = ∅ then 1
  else if pyOrFinset E1 E2 = ∅ then 0
  else pyRound4 (((E1 ∩ E2).card : ℚ) / ((E1 ∪ E2).card : ℚ))

/-- A Python value that is either a string or a pair of strings, with
Python's dynamically typed `==` (values of different shapes compare
unequal). -/
inductive Py2 where
  | s (v : String)
  | p (v : String × String)
  deriving DecidableEq

/-- Python `x in t` for a 2-tuple `t` of strings: membership by `==`
against the two elements. -/
def pyIn (x : Py2) (t : String × String) : Bool :=
  x == Py2.s t.1 || x == Py2.s t.2

/-- Embedding of `struct_evaluator.join_correctness`.  The source's
containment test `j2 in j or j in j2` is Python tuple membership: it asks
whether the 2-tuple `j2` equals one of the two strings of `j` (and vice
versa). -/
def join_correctness (sql1 sql2 : String) : ℚ :=
  let joins1 := extract_joins sql1
  let joins2 := extract_joins sql2
  if joins1 = [] then (if joins2 = [] then 1 else 0)
  else
    let matched := (joins1.filter (fun j =>
      joins2.any (fun j2 => pyIn (Py2.p j2) j || pyIn (Py2.p j) j2))).length
    pyRound4 ((matched : ℚ) / (joins1.length : ℚ))

end StructEvaluator

namespace PyDict

/-- Python dict insertion for arbitrary key/value types: overwrite in
place when the key exists, else append (insertion order preserved). -/
def insertKV {κ ν : Type} [BEq κ] (d : List (κ × ν)) (k : κ) (v : ν) :
    List (κ × ν) :=
  if d.any (fun p => p.1 == k) then
    d.map (fun p => if p.1 == k then (k, v) else p)
  else d ++ [(k, v)]

/-- Python `dict.get(k)`: `None` when the key is absent. -/
def get? {κ ν : Type} [BEq κ] (d : List (κ × ν)) (k : κ) : Option ν :=
  (d.find? (fun p => p.1 == k)).map (fun p => p.2)

end PyDict

namespace LexicalEvaluator

/-- Aggregation skeleton of `evaluate_lexical_metrics`.  The golden map is
built as a Python dict from `question_id` to golden SQL; each generated
entry whose lookup yields a falsy value (missing key or empty string) is
skipped; the per-pair metric computation on the two normalized queries
(Levenshtein similarity, TF-IDF cosine similarity from the external
scikit-learn library, attribute accuracy, combined with the weights) is
abstracted as `score`; finally the source computes
`sum(r["lexical_score"] for r in results) / len(results)`, which raises an
uncaught `ZeroDivisionError` when the results list is empty — modelled as
`Except.error`. -/
def evaluate_lexical_metrics (dataset generated : List (ℕ × String))
    (score : String → String → ℚ) : Except String (List (ℕ × ℚ) × ℚ) :=
  let golden_map := dataset.foldl (fun d p => PyDict.insertKV d p.1 p.2) []
  let results := generated.foldl (fun acc p =>
    match PyDict.get? golden_map p.1 with
    | none => acc
    | some gold_sql =>
      if gold_sql = "" then acc
      else acc ++ [(p.1, score (normalize_sql gold_sql) (normalize_sql p.2))]) []
  if results.length = 0 then Except.error "ZeroDivisionError"
  else Except.ok (results, (results.map (fun r => r.2)).sum / results.length)

end LexicalEvaluator

namespace StructEvaluator

/-- Aggregation skeleton of `evaluate_structural_metrics`, exactly
parallel to `evaluate_lexical_metrics`: same golden-map join, same skip
rule, per-pair structural score (token-sequence similarity via the
external sqlparse/difflib libraries, graph similarity, join correctness,
weighted) abstracted as `score`, and the same uncaught
`ZeroDivisionError` on an empty results list. -/
def evaluate_structural_metrics (dataset generated : List (ℕ × String))
    (score : String → String → ℚ) : Except String (List (ℕ × ℚ) × ℚ) :=
  let golden_map := dataset.foldl (fun d p => PyDict.insertKV d p.1 p.2) []
  let results := generated.foldl (fun acc p =>
    match PyDict.get? golden_map p.1 with
    | none => acc
    | some gold_sql =>
      if gold_sql = "" then acc
      else acc ++ [(p.1, score (normalize_sql gold_sql) (normalize_sql p.2))]) []
  if results.length = 0 then Except.error "ZeroDivisionError"
  else Except.ok (results, (results.map (fun r => r.2)).sum / results.length)

end StructEvaluator

namespace ClaimSide

/-- The claim's reading of a join-graph edge as an unordered node pair:
the reported edge set with every tuple forgotten down to the set of its
two endpoints. -/
def unorderedEdgeSetOf (s : String) : Finset (Finset String) :=
  (StructEvaluator.edgeSetOf s).image (fun p => {p.1, p.2})

/-- The rounded edge-set Jaccard index computed by `graph_similarity`:
`1` when both edge sets are empty, otherwise `round(|A ∩ B| / |A ∪ B|, 4)`. -/
def jaccardRounded (A B : Finset (String × String)) : ℚ :=
  if A = ∅ ∧ B = ∅ then 1
  else StructEvaluator.pyRound4 ((A ∩ B).card / ((A ∪ B).card : ℚ))

end ClaimSide

namespace ClaimSide

/-- Modelled from the spec's words for claim C5: partial execution
accuracy is `|rows(gold) ∩ rows(gen)| / |rows(gold)|` taking the row
collections as sets; if gold is empty or failed the score is `1.0` when
gen is also empty or failed and `0.0` otherwise; the score is `0.0` when
gen failed while gold succeeded. -/
def specPartialExecutionAccuracy {α : Type} [DecidableEq α]
    (gold gen : Option (List α)) : ℚ :=
  if gold = none ∨ gold.getD [] = [] then
    (if gen = none ∨ gen.getD [] = [] then 1 else 0)
  else if gen = none then 0
  else ((gold.getD []).toFinset ∩ (gen.getD []).toFinset).card /
       (((gold.getD []).toFinset.card : ℚ))

end ClaimSide

/-- Claim C5: for every pair of execution results, the source's
`partial_execution_accuracy` agrees with the spec's description
(`|rows(gold) ∩ rows(gen)| / |rows(gold)|` on sets, score `1.0` when both
sides are empty or failed, `0.0` when only one side is, `0.0` when gen
failed while gold succeeded), and the spec's worked example
gold `{(1,),(2,),(3,)}` against gen `{(1,),(4,)}` scores `1/3`. -/
theorem C5_partial_execution_accuracy_spec :
    (∀ (α : Type) [DecidableEq α] (gold gen : Option (List α)),
      SemanticEvaluator.partial_execution_accuracy gold gen =
        ClaimSide.specPartialExecutionAccuracy gold gen) ∧
    SemanticEvaluator.partial_execution_accuracy
      (some ([1, 2, 3] : List ℤ)) (some [1, 4]) = 1 / 3 := by
  constructor
  · intro α _ gold gen
    cases gold with
    | none =>
      cases gen with
      | none => rfl
      | some l =>
        cases l <;>
          simp [SemanticEvaluator.partial_execution_accuracy,
            SemanticEvaluator.optFalsy, ClaimSide.specPartialExecutionAccuracy]
    | some g =>
      cases gen with
      | none =>
        cases g <;>
          simp [SemanticEvaluator.partial_execution_accuracy,
            SemanticEvaluator.optFalsy, ClaimSide.specPartialExecutionAccuracy]
      | some l =>
        cases g <;> cases l <;>
          simp [SemanticEvaluator.partial_execution_accuracy,
            SemanticEvaluator.optFalsy, ClaimSide.specPartialExecutionAccuracy]
  · have h1 : (([1, 2, 3] : List ℤ).toFinset ∩ ([1, 4] : List ℤ).toFinset).card = 1 := by
      decide
    have h2 : (([1, 2, 3] : List ℤ).toFinset).card = 3 := by decide
    simp only [SemanticEvaluator.partial_execution_accuracy,
      SemanticEvaluator.optFalsy, List.isEmpty, h1, h2]
    norm_num

theorem levDistAux_self (n : ℕ) :
    ∀ xs : List Char, 2 * xs.length < n → LexicalEvaluator.levDistAux n xs xs = 0 := by
  induction n with
  | zero => intro xs h; omega
  | succ n ih =>
    intro xs h
    cases xs with
    | nil => rfl
    | cons x xs =>
      simp only [LexicalEvaluator.levDistAux, if_pos rfl]
      exact ih xs (by simp at h ⊢; omega)

theorem levenshtein_distance_self (a : List Char) :
    LexicalEvaluator.levenshtein_distance a a = 0 :=
  levDistAux_self _ a (by omega)

/-- Claim C1 counterexample: gold rows `[(1,"x"),(2,"y")]` and gen rows
`[(2,"y"),(1,"x")]` are equal as sets, yet `execution_accuracy` returns
`0`, not the claimed `1` — the source compares the two row lists with
Python `==`, which is order-sensitive. -/
theorem C1_counterexample :
    (([((1 : ℤ), "x"), (2, "y")] : List (ℤ × String)).toFinset =
      ([((2 : ℤ), "y"), (1, "x")] : List (ℤ × String)).toFinset) ∧
    SemanticEvaluator.execution_accuracy
      (some [((1 : ℤ), "x"), (2, "y")]) (some [((2 : ℤ), "y"), (1, "x")]) = 0 := by
  constructor
  · decide
  · decide

/-- Claim C1, amended: `execution_accuracy(gold, gen)` returns `1` if and
only if both executions succeeded and their row lists are identical —
order- and duplicate-sensitively — and returns `0` otherwise (including
whenever either side is the execution-failure marker); reordering the
rows yields `0`, not `1`. -/
theorem C1_execution_accuracy_exact :
    ∀ (α : Type) [DecidableEq α] (gold gen : Option (List α)),
      (SemanticEvaluator.execution_accuracy gold gen = 1 ↔
        gold ≠ none ∧ gold = gen) ∧
      (SemanticEvaluator.execution_accuracy gold gen = 0 ∨
        SemanticEvaluator.execution_accuracy gold gen = 1) := by
  intro α _ gold gen
  cases gold with
  | none => simp [SemanticEvaluator.execution_accuracy]
  | some g =>
    cases gen with
    | none => simp [SemanticEvaluator.execution_accuracy]
    | some h =>
      by_cases hgh : g = h <;>
        simp [SemanticEvaluator.execution_accuracy, hgh]

/-- Witness for C1: a concrete successful identical pair scores `1`. -/
theorem C1_witness :
    SemanticEvaluator.execution_accuracy (some [(1 : ℤ)]) (some [(1 : ℤ)]) = 1 :=
  (C1_execution_accuracy_exact ℤ (some [(1 : ℤ)]) (some [(1 : ℤ)])).1.mpr
    ⟨by simp, rfl⟩

/-- Claim C7 counterexample: the two strings of the pair `("", "")` are
identical, yet `levenshtein_similarity "" ""` is `0.0`, not the claimed
`1.0` — the empty-string early return takes precedence. -/
theorem C7_counterexample :
    LexicalEvaluator.levenshtein_similarity "" "" ≠ 1 := by
  norm_num [LexicalEvaluator.levenshtein_similarity]

/-- Claim C7, amended: for non-empty strings `levenshtein_similarity`
equals `1 − editDistance(a,b) / max(len(a), len(b))`; it is `0.0` whenever
either string is empty; and it is `1.0` for every pair of identical
non-empty strings. -/
theorem C7_levenshtein_similarity_formula :
    ∀ a b : String,
      (a ≠ "" → b ≠ "" → LexicalEvaluator.levenshtein_similarity a b =
        1 - (LexicalEvaluator.levenshtein_distance a.toList b.toList : ℚ) /
          (max a.toList.length b.toList.length : ℚ)) ∧
      (a = "" ∨ b = "" → LexicalEvaluator.levenshtein_similarity a b = 0) ∧
      (a = b → a ≠ "" → LexicalEvaluator.levenshtein_similarity a b = 1) := by
  intro a b
  refine ⟨fun ha hb => ?_, fun h => ?_, fun hab ha => ?_⟩
  · rw [LexicalEvaluator.levenshtein_similarity, if_neg (by tauto)]
  · rw [LexicalEvaluator.levenshtein_similarity, if_pos h]
  · subst hab
    rw [LexicalEvaluator.levenshtein_similarity, if_neg (by tauto),
      levenshtein_distance_self]
    simp

/-- Witness for C7: discharging the hypotheses at a concrete pair of
identical non-empty strings gives similarity `1`. -/
theorem C7_witness :
    LexicalEvaluator.levenshtein_similarity "ab" "ab" = 1 :=
  (C7_levenshtein_similarity_formula "ab" "ab").2.2 rfl (by decide)

/-- Claim C6 counterexample: with golden SQL `"select"` the golden
attribute set is empty, so the generated attribute set (also empty) is a
superset of it, yet `lexical_accuracy` returns `0.0`, not the claimed
`1.0` — the empty-golden early return takes precedence over the superset
rule. -/
theorem C6_counterexample :
    (LexicalEvaluator.extract_attributes "select").toFinset ⊆
      (LexicalEvaluator.extract_attributes "select").toFinset ∧
    LexicalEvaluator.lexical_accuracy "select" "select" ≠ 1 := by
  refine ⟨Finset.Subset.refl _, ?_⟩
  have h : (LexicalEvaluator.extract_attributes "select").toFinset =
      (∅ : Finset String) := by decide
  norm_num [LexicalEvaluator.lexical_accuracy, h]

/-- Claim C6, amended: `lexical_accuracy` returns
`|attrs(gold) ∩ attrs(gen)| / |attrs(gold)|` over the attribute sets
computed by `extract_attributes`; it is `0.0` when the golden attribute
set is empty (even when the generated set is a superset, which then holds
vacuously), `1.0` whenever the golden set is non-empty and the generated
set is a superset of it, and `0.0` whenever the two sets are disjoint and
the golden set is non-empty. -/
theorem C6_lexical_accuracy_ratio :
    ∀ g h : String,
      ((LexicalEvaluator.extract_attributes g).toFinset = ∅ →
        LexicalEvaluator.lexical_accuracy g h = 0) ∧
      ((LexicalEvaluator.extract_attributes g).toFinset ≠ ∅ →
        LexicalEvaluator.lexical_accuracy g h =
          (((LexicalEvaluator.extract_attributes g).toFinset ∩
            (LexicalEvaluator.extract_attributes h).toFinset).card : ℚ) /
          ((LexicalEvaluator.extract_attributes g).toFinset.card : ℚ)) ∧
      ((LexicalEvaluator.extract_attributes g).toFinset ≠ ∅ →
        (LexicalEvaluator.extract_attributes g).toFinset ⊆
          (LexicalEvaluator.extract_attributes h).toFinset →
        LexicalEvaluator.lexical_accuracy g h = 1) ∧
      ((LexicalEvaluator.extract_attributes g).toFinset ≠ ∅ →
        (LexicalEvaluator.extract_attributes g).toFinset ∩
          (LexicalEvaluator.extract_attributes h).toFinset = ∅ →
        LexicalEvaluator.lexical_accuracy g h = 0) := by
  intro g h
  refine ⟨fun hA => ?_, fun hA => ?_, fun hA hsub => ?_, fun hA hdisj => ?_⟩
  · rw [LexicalEvaluator.lexical_accuracy, if_pos hA]
  · rw [LexicalEvaluator.lexical_accuracy, if_neg hA]
  · rw [LexicalEvaluator.lexical_accuracy, if_neg hA,
      Finset.inter_eq_left.mpr hsub]
    exact div_self (by
      exact_mod_cast fun hc => hA (Finset.card_eq_zero.mp hc))
  · rw [LexicalEvaluator.lexical_accuracy, if_neg hA, hdisj]
    simp

/-- Witness for C6: a concrete non-empty golden attribute set contained in
the generated one scores `1`. -/
theorem C6_witness :
    LexicalEvaluator.lexical_accuracy "select a" "select a b" = 1 :=
  (C6_lexical_accuracy_ratio "select a" "select a b").2.2.1 (by decide)
    (by decide)

theorem floor_half : ⌊(1 : ℚ) / 2⌋ = 0 := by
  rw [Int.floor_eq_iff] <;> norm_num

theorem roundHalfEven_zero : StructEvaluator.roundHalfEven 0 = 0 := by
  rw [StructEvaluator.roundHalfEven]
  norm_num [floor_half]

theorem roundHalfEven_int (n : ℤ) :
    StructEvaluator.roundHalfEven (n : ℚ) = n := by
  rw [StructEvaluator.roundHalfEven]
  have h1 : ⌊(n : ℚ)⌋ = n := Int.floor_intCast n
  have h2 : ⌊(n : ℚ) + 1 / 2⌋ = n := by
    rw [Int.floor_eq_iff]
    constructor <;> [norm_num; push_cast] <;> norm_num
  rw [h1, h2]
  norm_num

theorem pyRound4_zero : StructEvaluator.pyRound4 0 = 0 := by
  rw [StructEvaluator.pyRound4]
  norm_num [roundHalfEven_zero]

theorem pyRound4_one : StructEvaluator.pyRound4 1 = 1 := by
  rw [StructEvaluator.pyRound4]
  have h : ((1 : ℚ) * 10000) = ((10000 : ℤ) : ℚ) := by norm_num
  rw [h, roundHalfEven_int]
  norm_num

theorem pyIn_pair_false (x t : String × String) :
    StructEvaluator.pyIn (StructEvaluator.Py2.p x) t = false := by
  simp [StructEvaluator.pyIn]

/-- Claim C2 (code bug): the matching test `j2 in j or j in j2` of
`join_correctness` is Python tuple membership of a 2-tuple in a 2-tuple of
strings, which is always false, so no golden join pair is ever counted as
matched: whenever the golden SQL has at least one extracted join pair,
`join_correctness` returns `0.0` — in particular for golden pairs
`[(a,b)]` against generated `[(b,a)]` (or even an identical pair), where
the claim requires `1.0`. -/
theorem C2_join_correctness_zero :
    ∀ sql1 sql2 : String, StructEvaluator.extract_joins sql1 ≠ [] →
      StructEvaluator.join_correctness sql1 sql2 = 0 := by
  intro s1 s2 h
  have hfilter :
      (StructEvaluator.extract_joins s1).filter (fun j =>
        (StructEvaluator.extract_joins s2).any (fun j2 =>
          StructEvaluator.pyIn (StructEvaluator.Py2.p j2) j ||
          StructEvaluator.pyIn (StructEvaluator.Py2.p j) j2)) = [] := by
    simp [pyIn_pair_false]
  rw [StructEvaluator.join_correctness]
  simp only [hfilter, if_neg h, List.length_nil, Nat.cast_zero, zero_div,
    pyRound4_zero]

/-- Witness for C2: the golden query has join pair `("a","b")` and the
generated one the reversed pair `("b","a")`, and the score is `0`. -/
theorem C2_witness :
    StructEvaluator.extract_joins "join b on a.x=b.x" ≠ [] ∧
    StructEvaluator.join_correctness "join b on a.x=b.x" "join a on b.x=a.x" = 0 :=
  ⟨by decide, C2_join_correctness_zero _ _ (by decide)⟩

theorem roundHalfEven_nonneg (q : ℚ) (h : 0 ≤ q) :
    0 ≤ StructEvaluator.roundHalfEven q := by
  rw [StructEvaluator.roundHalfEven]
  split_ifs with h1 h2
  · exact Int.floor_nonneg.mpr h
  · have := Int.floor_nonneg.mpr h
    omega
  · exact Int.floor_nonneg.mpr (by linarith)

theorem roundHalfEven_le_add_half (q : ℚ) :
    (StructEvaluator.roundHalfEven q : ℚ) ≤ q + 1 / 2 := by
  rw [StructEvaluator.roundHalfEven]
  split_ifs with h1 h2
  · push_cast
    linarith [Int.floor_le q]
  · push_cast
    linarith
  · exact_mod_cast Int.floor_le (q + 1 / 2)

theorem pyRound4_mem_unit (q : ℚ) (h0 : 0 ≤ q) (h1 : q ≤ 1) :
    0 ≤ StructEvaluator.pyRound4 q ∧ StructEvaluator.pyRound4 q ≤ 1 := by
  rw [StructEvaluator.pyRound4]
  constructor
  · have := roundHalfEven_nonneg (q * 10000) (by positivity)
    positivity
  · have hle : (StructEvaluator.roundHalfEven (q * 10000) : ℚ) ≤
        q * 10000 + 1 / 2 := roundHalfEven_le_add_half _
    have hlt : (StructEvaluator.roundHalfEven (q * 10000) : ℚ) <
        ((10001 : ℤ) : ℚ) := by
      push_cast
      linarith
    have hint : StructEvaluator.roundHalfEven (q * 10000) ≤ 10000 := by
      have h2 : StructEvaluator.roundHalfEven (q * 10000) < 10001 := by
        exact_mod_cast hlt
      omega
    rw [div_le_one (by norm_num)]
    exact_mod_cast hint

theorem pyOrFinset_eq_empty_iff (A B : Finset (String × String)) :
    StructEvaluator.pyOrFinset A B = ∅ ↔ A = ∅ ∧ B = ∅ := by
  rw [StructEvaluator.pyOrFinset]
  split_ifs with h
  · exact ⟨fun hA => absurd hA h, fun hAB => hAB.1⟩
  · push_neg at h
    simp [h]

/-- Claim C4 counterexample: the queries `"from a join b on a.x=b.x"` and
`"from b join a on a.x=b.x"` have identical join graphs as undirected
graphs (one edge between tables `a` and `b`), yet `graph_similarity` is
`0`, not the claimed `1.0`: `set(G.edges())` reports each edge as a tuple
oriented by node-insertion order, so the two graphs expose the disjoint
edge-tuple sets `{("a","b")}` and `{("b","a")}`. -/
theorem C4_counterexample :
    ClaimSide.unorderedEdgeSetOf "from a join b on a.x=b.x" =
      ClaimSide.unorderedEdgeSetOf "from b join a on a.x=b.x" ∧
    ClaimSide.unorderedEdgeSetOf "from a join b on a.x=b.x" ≠ ∅ ∧
    StructEvaluator.graph_similarity "from a join b on a.x=b.x"
      "from b join a on a.x=b.x" = 0 := by
  refine ⟨by decide, by decide, ?_⟩
  have hne1 : ¬(StructEvaluator.edgeSetOf "from a join b on a.x=b.x" = ∅ ∧
      StructEvaluator.edgeSetOf "from b join a on a.x=b.x" = ∅) := by decide
  have hne2 : ¬(StructEvaluator.pyOrFinset
      (StructEvaluator.edgeSetOf "from a join b on a.x=b.x")
      (StructEvaluator.edgeSetOf "from b join a on a.x=b.x") = ∅) := by decide
  have hI : (StructEvaluator.edgeSetOf "from a join b on a.x=b.x" ∩
      StructEvaluator.edgeSetOf "from b join a on a.x=b.x").card = 0 := by decide
  have hU : (StructEvaluator.edgeSetOf "from a join b on a.x=b.x" ∪
      StructEvaluator.edgeSetOf "from b join a on a.x=b.x").card = 2 := by decide
  rw [StructEvaluator.graph_similarity]
  simp only [if_neg hne1, if_neg hne2, hI, hU, Nat.cast_zero, zero_div,
    pyRound4_zero]

/-- Claim C4, amended: `graph_similarity` equals the rounded Jaccard index
of the two reported edge sets, whose elements are tuples oriented by node
insertion order rather than unordered node pairs (`1.0` when both edge
sets are empty); it is `1.0` whenever the reported edge-tuple sets are
equal — in particular for two identical query strings — but two queries
whose join graphs are identical merely as undirected graphs can score
`0.0` when the reported orientations differ. -/
theorem C4_graph_similarity_oriented_jaccard :
    ∀ sql1 sql2 : String,
      StructEvaluator.graph_similarity sql1 sql2 =
        ClaimSide.jaccardRounded (StructEvaluator.edgeSetOf sql1)
          (StructEvaluator.edgeSetOf sql2) ∧
      (StructEvaluator.edgeSetOf sql1 = StructEvaluator.edgeSetOf sql2 →
        StructEvaluator.graph_similarity sql1 sql2 = 1) := by
  intro sql1 sql2
  have hmain : StructEvaluator.graph_similarity sql1 sql2 =
      ClaimSide.jaccardRounded (StructEvaluator.edgeSetOf sql1)
        (StructEvaluator.edgeSetOf sql2) := by
    rw [StructEvaluator.graph_similarity, ClaimSide.jaccardRounded]
    split_ifs with h1 h2
    · rfl
    · exact absurd ((pyOrFinset_eq_empty_iff _ _).mp h2) h1
    · rfl
  refine ⟨hmain, fun hEq => ?_⟩
  rw [hmain, ClaimSide.jaccardRounded]
  split_ifs with h1
  · rfl
  · rw [hEq, Finset.inter_self, Finset.union_self]
    have hcard : (StructEvaluator.edgeSetOf sql2).card ≠ 0 := by
      intro hc
      rw [Finset.card_eq_zero] at hc
      exact h1 ⟨hEq.trans hc, hc⟩
    rw [div_self (by exact_mod_cast hcard)]
    exact pyRound4_one

/-- Witness for C4: two identical queries have equal reported edge sets
and score `1`. -/
theorem C4_witness : StructEvaluator.graph_similarity "" "" = 1 :=
  (C4_graph_similarity_oriented_jaccard "" "").2 rfl

/-- Claim C10: in `graph_similarity` the branch that returns `0.0` (taken
when `not (E1 or E2)`) is unreachable — its condition implies the
preceding both-empty condition, which has already returned `1.0` — so
whenever the Jaccard division is executed the edge-set union is non-empty,
and the result always lies in `[0, 1]`. -/
theorem C10_graph_similarity_no_div_by_zero :
    ∀ sql1 sql2 : String,
      (¬(StructEvaluator.edgeSetOf sql1 = ∅ ∧
          StructEvaluator.edgeSetOf sql2 = ∅) →
        StructEvaluator.pyOrFinset (StructEvaluator.edgeSetOf sql1)
            (StructEvaluator.edgeSetOf sql2) ≠ ∅ ∧
        (StructEvaluator.edgeSetOf sql1 ∪
            StructEvaluator.edgeSetOf sql2).card ≠ 0) ∧
      0 ≤ StructEvaluator.graph_similarity sql1 sql2 ∧
      StructEvaluator.graph_similarity sql1 sql2 ≤ 1 := by
  intro sql1 sql2
  have hunion : ¬(StructEvaluator.edgeSetOf sql1 = ∅ ∧
      StructEvaluator.edgeSetOf sql2 = ∅) →
      (StructEvaluator.edgeSetOf sql1 ∪
        StructEvaluator.edgeSetOf sql2).card ≠ 0 := by
    intro h hc
    rw [Finset.card_eq_zero, Finset.union_eq_empty] at hc
    exact h hc
  refine ⟨fun h => ⟨fun ho => h ((pyOrFinset_eq_empty_iff _ _).mp ho),
    hunion h⟩, ?_⟩
  rw [StructEvaluator.graph_similarity]
  split_ifs with h1 h2
  · norm_num
  · norm_num
  · have hI : (StructEvaluator.edgeSetOf sql1 ∩ StructEvaluator.edgeSetOf sql2).card ≤
        (StructEvaluator.edgeSetOf sql1 ∪ StructEvaluator.edgeSetOf sql2).card :=
      Finset.card_le_card
        (le_trans Finset.inter_subset_left Finset.subset_union_left)
    have hU : 0 < ((StructEvaluator.edgeSetOf sql1 ∪
        StructEvaluator.edgeSetOf sql2).card : ℚ) := by
      have := hunion h1
      have hpos : 0 < (StructEvaluator.edgeSetOf sql1 ∪
          StructEvaluator.edgeSetOf sql2).card := Nat.pos_of_ne_zero this
      exact_mod_cast hpos
    refine pyRound4_mem_unit _ (by positivity) ?_
    rw [div_le_one hU]
    exact_mod_cast hI

/-- Witness for C10: at a pair of queries with a join, the dead-branch
condition is indeed unreachable and the similarity lies in `[0, 1]`. -/
theorem C10_witness :
    StructEvaluator.pyOrFinset
        (StructEvaluator.edgeSetOf "from a join b on a.x=b.x")
        (StructEvaluator.edgeSetOf "from b join a on a.x=b.x") ≠ ∅ ∧
    (StructEvaluator.edgeSetOf "from a join b on a.x=b.x" ∪
        StructEvaluator.edgeSetOf "from b join a on a.x=b.x").card ≠ 0 ∧
    0 ≤ StructEvaluator.graph_similarity "from a join b on a.x=b.x"
        "from b join a on a.x=b.x" ∧
    StructEvaluator.graph_similarity "from a join b on a.x=b.x"
        "from b join a on a.x=b.x" ≤ 1 := by
  obtain ⟨h1, h2, h3⟩ := C10_graph_similarity_no_div_by_zero
    "from a join b on a.x=b.x" "from b join a on a.x=b.x"
  exact ⟨(h1 (by decide)).1, (h1 (by decide)).2, h2, h3⟩

theorem ws_cases (c : Char) (h : PyStr.isWsC c = true) :
    c = ' ' ∨ c = '\t' ∨ c = '\n' ∨ c = '\r' ∨
    c = Char.ofNat 11 ∨ c = Char.ofNat 12 := by
  simp [PyStr.isWsC] at h
  tauto

theorem ws_pyLowerC (c : Char) (h : PyStr.isWsC c = true) :
    PyStr.pyLowerC c = c := by
  rcases ws_cases c h with h | h | h | h | h | h <;> subst h <;> decide

theorem ws_ne_backquote (c : Char) (h : PyStr.isWsC c = true) :
    (c != Char.ofNat 96) = true := by
  rcases ws_cases c h with h | h | h | h | h | h <;> subst h <;> decide

theorem pyLowerL_of_all_ws (l : List Char)
    (h : ∀ c ∈ l, PyStr.isWsC c = true) : PyStr.pyLowerL l = l := by
  rw [PyStr.pyLowerL]
  induction l with
  | nil => rfl
  | cons a t ih =>
    rw [List.map_cons, ws_pyLowerC a (h a (by simp)),
      ih (fun c hc => h c (by simp [hc]))]

theorem removeBackquote_of_all_ws (l : List Char)
    (h : ∀ c ∈ l, PyStr.isWsC c = true) :
    PyStr.removeAllChar (Char.ofNat 96) l = l := by
  rw [PyStr.removeAllChar]
  induction l with
  | nil => rfl
  | cons a t ih =>
    have ha := ws_ne_backquote a (h a (by simp))
    rw [List.filter_cons, if_pos ha, ih (fun c hc => h c (by simp [hc]))]

theorem collapseWs_of_all_ws :
    ∀ l : List Char, l ≠ [] → (∀ c ∈ l, PyStr.isWsC c = true) →
      PyStr.collapseWs l = [' '] := by
  intro l
  induction l with
  | nil => intro h; exact absurd rfl h
  | cons a t ih =>
    intro _ hall
    cases t with
    | nil => simp [PyStr.collapseWs, hall a (by simp)]
    | cons b r =>
      have ha := hall a (by simp)
      have hb := hall b (by simp)
      have ht := ih (by simp) (fun c hc => hall c (by simp [hc]))
      simp [PyStr.collapseWs, ha, hb, ht]

/-- Claim C8: both normalizers are total deterministic functions (they are
plain functions of the input string in this embedding), and every empty or
whitespace-only input normalizes to the empty string. -/
theorem C8_normalize_whitespace_only :
    ∀ s : String, (∀ c ∈ s.toList, PyStr.isWsC c = true) →
      LexicalEvaluator.normalize_sql s = "" ∧
      StructEvaluator.normalize_sql s = "" := by
  intro s h
  by_cases hnil : s.toList = []
  · unfold LexicalEvaluator.normalize_sql StructEvaluator.normalize_sql
    rw [hnil]
    exact ⟨rfl, rfl⟩
  · have h1 := pyLowerL_of_all_ws s.toList h
    have h2 := removeBackquote_of_all_ws s.toList h
    have h3 := collapseWs_of_all_ws s.toList hnil h
    unfold LexicalEvaluator.normalize_sql StructEvaluator.normalize_sql
    rw [h1, h2, h3]
    exact ⟨rfl, rfl⟩

/-- Witness for C8: a concrete whitespace-only input normalizes to the
empty string in both pipelines. -/
theorem C8_witness :
    LexicalEvaluator.normalize_sql "  \t " = "" ∧
    StructEvaluator.normalize_sql "  \t " = "" :=
  C8_normalize_whitespace_only "  \t " (by decide)

/-- Claim C3 counterexample: both normalizers fail idempotence at the
input `"a ; b"` — the first pass removes the `;` after whitespace has
already been collapsed, leaving the double space `"a  b"`, which a second
pass collapses to `"a b"`. -/
theorem C3_counterexample :
    LexicalEvaluator.normalize_sql (LexicalEvaluator.normalize_sql "a ; b") ≠
      LexicalEvaluator.normalize_sql "a ; b" ∧
    StructEvaluator.normalize_sql (StructEvaluator.normalize_sql "a ; b") ≠
      StructEvaluator.normalize_sql "a ; b" := by
  exact ⟨by decide, by decide⟩

/-- Claim C3, amended: both normalizers are case- and
whitespace-insensitive on the spec's example —
`normalize_sql("SELECT A") == normalize_sql("select a")` — but
normalization is not idempotent in general: removing `;` (and, in the
lexical pipeline, `as` tokens and qualifiers) after whitespace collapse
can reintroduce double spaces or new `" as "` occurrences, as the
counterexample `"a ; b"` shows. -/
theorem C3_normalize_case_insensitive :
    LexicalEvaluator.normalize_sql "SELECT A" =
      LexicalEvaluator.normalize_sql "select a" ∧
    StructEvaluator.normalize_sql "SELECT A" =
      StructEvaluator.normalize_sql "select a" := by
  exact ⟨by decide, by decide⟩

theorem eval_results_nil (golden_map : List (ℕ × String))
    (score : String → String → ℚ) (normf : String → String) :
    ∀ (generated : List (ℕ × String)) (acc : List (ℕ × ℚ)),
      (∀ p ∈ generated, PyDict.get? golden_map p.1 = none ∨
        PyDict.get? golden_map p.1 = some "") →
      generated.foldl (fun acc p =>
        match PyDict.get? golden_map p.1 with
        | none => acc
        | some gold_sql =>
          if gold_sql = "" then acc
          else acc ++ [(p.1, score (normf gold_sql) (normf p.2))]) acc = acc := by
  intro generated
  induction generated with
  | nil => intro acc _; rfl
  | cons q t ih =>
    intro acc hall
    rw [List.foldl_cons]
    rcases hall q (by simp) with h | h <;>
      · rw [h]
        exact ih acc (fun p hp => hall p (by simp [hp]))

/-- Claim C9: when zero generated entries join to a golden entry, the
per-question results list is empty and the corpus-mean computation
`sum(...) / len(results)` fails with an uncaught `ZeroDivisionError`
surfaced to the caller, in both `evaluate_lexical_metrics` and
`evaluate_structural_metrics`; no report with a silently defaulted mean is
produced. -/
theorem C9_empty_join_surfaces_error :
    ∀ (dataset generated : List (ℕ × String))
      (scoreL scoreS : String → String → ℚ),
      (∀ p ∈ generated,
        PyDict.get? (dataset.foldl (fun d q => PyDict.insertKV d q.1 q.2) [])
          p.1 = none ∨
        PyDict.get? (dataset.foldl (fun d q => PyDict.insertKV d q.1 q.2) [])
          p.1 = some "") →
      LexicalEvaluator.evaluate_lexical_metrics dataset generated scoreL =
        Except.error "ZeroDivisionError" ∧
      StructEvaluator.evaluate_structural_metrics dataset generated scoreS =
        Except.error "ZeroDivisionError" := by
  intro dataset generated scoreL scoreS hjoin
  constructor
  · rw [LexicalEvaluator.evaluate_lexical_metrics]
    rw [eval_results_nil _ scoreL LexicalEvaluator.normalize_sql generated []
      hjoin]
    rfl
  · rw [StructEvaluator.evaluate_structural_metrics]
    rw [eval_results_nil _ scoreS StructEvaluator.normalize_sql generated []
      hjoin]
    rfl

/-- Witness for C9: with an empty dataset and one generated entry, both
drivers surface the `ZeroDivisionError`. -/
theorem C9_witness :
    LexicalEvaluator.evaluate_lexical_metrics [] [(1, "select 1")]
        (fun _ _ => 0) = Except.error "ZeroDivisionError" ∧
    StructEvaluator.evaluate_structural_metrics [] [(1, "select 1")]
        (fun _ _ => 0) = Except.error "ZeroDivisionError" :=
  C9_empty_join_surfaces_error [] [(1, "select 1")] (fun _ _ => 0)
    (fun _ _ => 0) (by decide)
